import Mathlib

/-!
Verification of the LetterChain cover-letter pipeline.

This file gives a shallow embedding of the core control flow of the
repository (`backend/app/workflows/graph.py`, `backend/app/workflows/nodes.py`,
`backend/app/services/ai_service.py`, `backend/app/services/graph_service.py`)
and proves or refutes the frozen specification claims about it.

Modelling conventions:
  - Python dicts holding parsed model output are modelled by the `Json` type;
    Python truthiness, `len`, iteration, `in` and `.get` are modelled by
    `pyTruthy`, `pyLen`, `pyIter`, `pyContains`, `jget` (partial variants
    return `Option` where the Python operation can raise `TypeError` or
    `AttributeError`).
  - The pipeline state dict (`CoverLetterState`) is a structure of `Option`
    fields; `none` models an absent key.
  - Calls to the language-model backend are resolved by an oracle supplied to
    each run; a call outcome is `Except String String` (exception or response
    text), matching `invoke_with_retry`'s interface.
  - JSON floats do not occur in any claim-relevant value; numbers are
    modelled as integers (the literal `0.0` in the validator fallback is
    modelled as `0`).
  - The wording of prompts is out of scope per the specification (§1); prompt
    strings are modelled as injective encodings of their interpolated data,
    except for the revision directive appended for `prior_issues`, which is
    claim-relevant and modelled verbatim.
-/

/-- JSON values as produced by `json.loads` on model responses. -/
inductive Json where
  | null : Json
  | bool : Bool → Json
  | num : Int → Json
  | str : String → Json
  | arr : List Json → Json
  | obj : List (String × Json) → Json
deriving Repr

mutual

/-- Structural equality on JSON values (Python `==` on loaded JSON). -/
def Json.beq : Json → Json → Bool
  | .null, .null => true
  | .bool a, .bool b => a == b
  | .num a, .num b => a == b
  | .str a, .str b => a == b
  | .arr a, .arr b => Json.beqList a b
  | .obj a, .obj b => Json.beqObj a b
  | _, _ => false

def Json.beqList : List Json → List Json → Bool
  | [], [] => true
  | a :: as, b :: bs => Json.beq a b && Json.beqList as bs
  | _, _ => false

def Json.beqObj : List (String × Json) → List (String × Json) → Bool
  | [], [] => true
  | (k, a) :: as, (k', b) :: bs => k == k' && Json.beq a b && Json.beqObj as bs
  | _, _ => false

end

instance : BEq Json := ⟨Json.beq⟩

/-- Python truthiness of a JSON value (`if x:`). -/
def pyTruthy : Json → Bool
  | .null => false
  | .bool b => b
  | .num n => n != 0
  | .str s => s != ""
  | .arr l => !l.isEmpty
  | .obj l => !l.isEmpty

/-- Python `len(x)`; `none` models `TypeError` on unsized values. -/
def pyLen : Json → Option Nat
  | .arr l => some l.length
  | .str s => some s.length
  | .obj l => some l.length
  | _ => none

/-- Python iteration (`for x in v`); `none` models `TypeError`.
Iterating a string yields its characters, a dict its keys. -/
def pyIter : Json → Option (List Json)
  | .arr l => some l
  | .str s => some (s.data.map (fun c => Json.str (String.mk [c])))
  | .obj l => some (l.map (fun kv => Json.str kv.1))
  | _ => none

/-- Python membership `k in v` for a string `k`; `none` models `TypeError`
(membership on numbers/booleans/None). On dicts it tests keys, on lists it
tests element equality, on strings substring containment. -/
def pyContains (v : Json) (k : String) : Option Bool :=
  match v with
  | .obj l => some (l.any (fun kv => kv.1 == k))
  | .arr l => some (l.any (fun x => Json.beq x (Json.str k)))
  | .str s => some (decide (k.data <:+: s.data))
  | _ => none

/-- Dict lookup `d.get(k, default)`, defined on `obj` values only; every use
site first checks `isObj` (a `.get` on a non-dict raises `AttributeError`). -/
def jget (v : Json) (k : String) (d : Json) : Json :=
  match v with
  | .obj l => ((l.find? (fun kv => kv.1 == k)).map (fun kv => kv.2)).getD d
  | _ => d

/-- Whether a JSON value is a dict (`isinstance(x, dict)`). -/
def Json.isObj : Json → Bool
  | .obj _ => true
  | _ => false

/-- Dict indexing `d[k]`; `none` models `KeyError`/`TypeError`. -/
def jind (v : Json) (k : String) : Option Json :=
  match v with
  | .obj l => (l.find? (fun kv => kv.1 == k)).map (fun kv => kv.2)
  | _ => none

mutual

/-- `json.dumps` (compact rendering; exact formatting of prompt payloads is
out of scope, only injectivity of the encoding matters). -/
def jsonDumps : Json → String
  | .null => "null"
  | .bool true => "true"
  | .bool false => "false"
  | .num n => toString n
  | .str s => "\"" ++ s ++ "\""
  | .arr l => "[" ++ jsonDumpsList l ++ "]"
  | .obj l => "\x7b" ++ jsonDumpsObj l ++ "\x7d"

def jsonDumpsList : List Json → String
  | [] => ""
  | [x] => jsonDumps x
  | x :: xs => jsonDumps x ++ ", " ++ jsonDumpsList xs

def jsonDumpsObj : List (String × Json) → String
  | [] => ""
  | [(k, v)] => "\"" ++ k ++ "\": " ++ jsonDumps v
  | (k, v) :: xs => "\"" ++ k ++ "\": " ++ jsonDumps v ++ ", " ++ jsonDumpsObj xs

end

/-- Python `f"{x}"` conversion of a JSON value to text: a `str` interpolates
verbatim, other values by their textual form. -/
def pyToStr : Json → String
  | .str s => s
  | .bool true => "True"
  | .bool false => "False"
  | .null => "None"
  | j => jsonDumps j

/-- Python `"\n".join(parts)`. -/
def joinNl : List String → String
  | [] => ""
  | [x] => x
  | x :: xs => x ++ "\n" ++ joinNl xs

/-- Whitespace characters stripped by `str.strip()` / skipped by `json`. -/
def isPyWs (c : Char) : Bool :=
  c = ' ' || c = '\n' || c = '\t' || c = '\r'

/-- Python `str.strip()`. -/
def pyStrip (s : String) : String :=
  String.mk (((s.data.dropWhile isPyWs).reverse.dropWhile isPyWs).reverse)

/-! ### `json.loads` (a fuel-indexed model of the stdlib JSON reader) -/

/-- Skip JSON whitespace. -/
def skipWs : List Char → List Char
  | c :: cs => if isPyWs c then skipWs cs else c :: cs
  | [] => []

/-- Read a JSON string body after the opening quote; handles the escapes used
by the repository's model payloads. -/
def parseStringBody : List Char → Option (String × List Char)
  | '"' :: cs => some ("", cs)
  | '\\' :: c :: cs =>
    let esc : Option Char :=
      if c = '"' then some '"'
      else if c = '\\' then some '\\'
      else if c = '/' then some '/'
      else if c = 'n' then some '\n'
      else if c = 't' then some '\t'
      else if c = 'r' then some '\r'
      else none
    match esc with
    | none => none
    | some e => (parseStringBody cs).map (fun p => (String.mk (e :: p.1.data), p.2))
  | c :: cs =>
    if c = '\\' then none
    else (parseStringBody cs).map (fun p => (String.mk (c :: p.1.data), p.2))
  | [] => none

/-- Read a run of decimal digits as a natural number (at least one digit). -/
def parseNatNum : List Char → Option (Nat × List Char)
  | cs =>
    let digits := cs.takeWhile Char.isDigit
    if digits.isEmpty then none
    else some (digits.foldl (fun n c => n * 10 + (c.toNat - 48)) 0, cs.drop digits.length)

mutual

/-- Read one JSON value (integers only; no float appears in claim-relevant
data). -/
def parseValue : Nat → List Char → Option (Json × List Char)
  | 0, _ => none
  | fuel + 1, cs =>
    match skipWs cs with
    | 'n' :: 'u' :: 'l' :: 'l' :: r => some (.null, r)
    | 't' :: 'r' :: 'u' :: 'e' :: r => some (.bool true, r)
    | 'f' :: 'a' :: 'l' :: 's' :: 'e' :: r => some (.bool false, r)
    | '"' :: r => (parseStringBody r).map (fun p => (.str p.1, p.2))
    | '[' :: r =>
      (match skipWs r with
       | ']' :: r' => some (.arr [], r')
       | r' => (parseElems fuel r').map (fun p => (.arr p.1, p.2)))
    | '{' :: r =>
      (match skipWs r with
       | '}' :: r' => some (.obj [], r')
       | r' => (parseMembers fuel r').map (fun p => (.obj p.1, p.2)))
    | '-' :: r => (parseNatNum r).map (fun p => (.num (-(p.1 : Int)), p.2))
    | c :: r =>
      if c.isDigit then (parseNatNum (c :: r)).map (fun p => (.num (p.1 : Int), p.2))
      else none
    | [] => none

/-- Read the elements of a non-empty JSON array up to its closing bracket. -/
def parseElems : Nat → List Char → Option (List Json × List Char)
  | 0, _ => none
  | fuel + 1, cs => do
    let (v, r) ← parseValue fuel cs
    match skipWs r with
    | ',' :: r' => (parseElems fuel r').map (fun p => (v :: p.1, p.2))
    | ']' :: r' => some ([v], r')
    | _ => none

/-- Read the members of a non-empty JSON object up to its closing brace. -/
def parseMembers : Nat → List Char → Option (List (String × Json) × List Char)
  | 0, _ => none
  | fuel + 1, cs =>
    match skipWs cs with
    | '"' :: r => do
      let (k, r1) ← parseStringBody r
      match skipWs r1 with
      | ':' :: r2 => do
        let (v, r3) ← parseValue fuel r2
        match skipWs r3 with
        | ',' :: r4 => (parseMembers fuel r4).map (fun p => ((k, v) :: p.1, p.2))
        | '}' :: r4 => some ([(k, v)], r4)
        | _ => none
      | _ => none
    | _ => none

end

/-- `json.loads`: parse a complete JSON document; `none` models
`json.JSONDecodeError` (including trailing non-whitespace data). -/
def pyJsonLoads (s : String) : Option Json :=
  match parseValue (s.length + 1) s.data with
  | some (v, r) => if (skipWs r).isEmpty then some v else none
  | none => none

/-! ### `AIService._parse_json_response` (ai_service.py lines 261-281) -/

/-- The backquote character (used to recognise fenced code blocks). -/
def tick : Char := Char.ofNat 96

/-- The opening/closing fence `\`\`\``. -/
def ticks : List Char := [tick, tick, tick]

/-- Lazy body match for the fenced-block pattern: starting inside a fence,
find the shortest prefix after which an optional newline and a closing fence
follow (the lazy group `(.*?)` followed by `\n?` and the closing ticks). -/
def fencedBody : List Char → Option (List Char)
  | [] => none
  | c :: rest =>
    if ('\n' :: ticks).isPrefixOf (c :: rest) then some []
    else if ticks.isPrefixOf (c :: rest) then some []
    else (fencedBody rest).map (fun g => c :: g)

/-- Backtracking choices after an opening fence for the optional `json` tag
and optional newline (`(?:json)?\n?`), in the order the regex engine tries
them (both greedy). -/
def fenceOpts (cs : List Char) : List (List Char) :=
  (if "json".data.isPrefixOf cs then
    (match cs.drop 4 with
     | '\n' :: r' => [r', cs.drop 4]
     | _ => [cs.drop 4])
   else []) ++
  (match cs with
   | '\n' :: r' => [r']
   | _ => []) ++ [cs]

/-- First backtracking choice whose body match succeeds. -/
def firstBody : List (List Char) → Option (List Char)
  | [] => none
  | o :: os =>
    match fencedBody o with
    | some g => some g
    | none => firstBody os

/-- `re.search` for the fenced-block pattern: try each start position from
the left; at a position opening with three backquotes, try the tag/newline
choices and the lazy body. Returns group 1 (the fenced content). -/
def fencedSearch : List Char → Option (List Char)
  | [] => none
  | c :: rest =>
    if ticks.isPrefixOf (c :: rest) then
      match firstBody (fenceOpts (rest.drop 2)) with
      | some g => some g
      | none => fencedSearch rest
    else fencedSearch rest

/-- Keep everything up to and including the last closing brace. -/
def takeThroughLastRBrace (cs : List Char) : List Char :=
  (cs.reverse.dropWhile (fun c => c ≠ '}')).reverse

/-- `re.search(r"\{.*\}", response, re.DOTALL)`: the match starts at the first
opening brace that has a closing brace after it; the greedy `.*` extends the
match to the last closing brace of the whole text. -/
def braceSpan : List Char → Option (List Char)
  | [] => none
  | c :: rest =>
    if c = '{' then
      if rest.contains '}' then some ('{' :: takeThroughLastRBrace rest)
      else braceSpan rest
    else braceSpan rest

/-- `AIService._parse_json_response`: take a fenced block's content if the
fenced pattern matches (stripped), else the first-to-last brace span, else
raise `ValueError("No valid JSON found in response")`; parse the extracted
text, raising `ValueError("Invalid JSON response")` on a decode error. -/
def parse_json_response (response : String) : Except String Json :=
  match fencedSearch response.data with
  | some g =>
    (match pyJsonLoads (pyStrip (String.mk g)) with
     | some j => .ok j
     | none => .error "Invalid JSON response")
  | none =>
    match braceSpan response.data with
    | some g =>
      (match pyJsonLoads (String.mk g) with
       | some j => .ok j
       | none => .error "Invalid JSON response")
    | none => .error "No valid JSON found in response"

/-! ### Pipeline state (workflows/state.py `CoverLetterState`)

A Python dict keyed by field name; `none` models an absent key. -/

structure CoverLetterState where
  resume_posting : Option String := none
  job_posting : Option String := none
  tone : Option String := none
  user_name : Option Json := none
  resume_info : Option Json := none
  job_info : Option Json := none
  matched_experiences : Option Json := none
  cover_letter : Option String := none
  validation_result : Option Json := none
  prior_issues : Option Json := none
  input_validation : Option Json := none
  validation_failed : Option Bool := none
  validation_error : Option Json := none
  error : Option Json := none
  workflow_completed : Option Bool := none
  status : Option String := none
  user_feedback : Option String := none
  feedback_processed : Option Bool := none
  feedback_analysis : Option Json := none
deriving Repr

/-- `StateValidator.validate_initial_state` (state.py lines 34-38). -/
def validate_initial_state (s : CoverLetterState) : Bool :=
  s.resume_posting.isSome && s.job_posting.isSome

/-- The keys present in the state dict, in field order (`list(state.keys())`;
dict insertion order is approximated by declaration order). -/
def stateKeys (s : CoverLetterState) : List String :=
  (if s.resume_posting.isSome then ["resume_posting"] else []) ++
  (if s.job_posting.isSome then ["job_posting"] else []) ++
  (if s.tone.isSome then ["tone"] else []) ++
  (if s.user_name.isSome then ["user_name"] else []) ++
  (if s.resume_info.isSome then ["resume_info"] else []) ++
  (if s.job_info.isSome then ["job_info"] else []) ++
  (if s.matched_experiences.isSome then ["matched_experiences"] else []) ++
  (if s.cover_letter.isSome then ["cover_letter"] else []) ++
  (if s.validation_result.isSome then ["validation_result"] else []) ++
  (if s.prior_issues.isSome then ["prior_issues"] else []) ++
  (if s.input_validation.isSome then ["input_validation"] else []) ++
  (if s.validation_failed.isSome then ["validation_failed"] else []) ++
  (if s.validation_error.isSome then ["validation_error"] else []) ++
  (if s.error.isSome then ["error"] else []) ++
  (if s.workflow_completed.isSome then ["workflow_completed"] else []) ++
  (if s.status.isSome then ["status"] else [])

/-- `StateValidator.get_state_summary` (state.py lines 51-63). -/
def get_state_summary (s : CoverLetterState) : Json :=
  Json.obj
    [("has_resume", Json.bool s.resume_posting.isSome),
     ("has_job", Json.bool s.job_posting.isSome),
     ("resume_parsed", Json.bool s.resume_info.isSome),
     ("job_parsed", Json.bool s.job_info.isSome),
     ("experiences_matched", Json.bool s.matched_experiences.isSome),
     ("letter_generated", Json.bool s.cover_letter.isSome),
     ("validation_complete", Json.bool s.validation_result.isSome),
     ("state_keys", Json.arr ((stateKeys s).map Json.str))]

/-! ### Pipeline stages (workflows/nodes.py)

Each node takes the outcome of its model call (exception message or response
text, the interface of `invoke_with_retry`) and the state; the result is
`none` when an exception escapes the stage boundary (`KeyError` on a missing
required field, or a `TypeError` raised outside the stage's `try` block). -/

/-- Outcome of one `invoke_with_retry` call: raised exception or response
text. -/
abbrev MCall := Except String String

/-- Python `s[:n]` slicing. -/
def pyTake (n : Nat) (s : String) : String := String.mk (s.data.take n)

/-- Prompt of the input validator (wording out of scope; the truncated
documents are interpolated as in nodes.py line 41). -/
def inputValidationPrompt (resumeText jobText : String) : String :=
  "INPUT_VALIDATION_SYSTEM_PROMPT\n\n### Resume Text:\n" ++ pyTake 2000 resumeText ++
  "...\n\n### Job Description Text:\n" ++ pyTake 2000 jobText ++ "..."

/-- `input_validation_node` (nodes.py lines 10-68). -/
def input_validation_node (call : MCall) (s : CoverLetterState) :
    Option CoverLetterState := do
  let resumeText ← s.resume_posting
  let jobText ← s.job_posting
  let _prompt := inputValidationPrompt resumeText jobText
  match call.bind parse_json_response with
  | .error e =>
    some { s with validation_failed := some true,
                  validation_error := some (Json.obj [("error", Json.str e)]) }
  | .ok vd =>
    let s1 := { s with input_validation := some vd }
    if vd.isObj then
      if !(pyTruthy (jget vd "resume_valid" (Json.bool false))) ||
         !(pyTruthy (jget vd "job_valid" (Json.bool false))) then
        some { s1 with
          validation_failed := some true,
          validation_error := some (Json.obj
            [("resume_issues", jget vd "resume_issues" (Json.arr [])),
             ("job_issues", jget vd "job_issues" (Json.arr []))]) }
      else some s1
    else
      -- `.get` on a non-dict raises AttributeError; the handler records it
      some { s1 with validation_failed := some true,
                     validation_error := some (Json.obj
                       [("error", Json.str "AttributeError")]) }

/-- Fallback resume structure (nodes.py lines 89-94). -/
def resumeFallback : Json :=
  Json.obj [("name", Json.str "Candidate"), ("experience", Json.arr []),
            ("education", Json.arr []), ("skills", Json.arr [])]

/-- `resume_parser_node` (nodes.py lines 70-96): `ai_service.parse_resume` is
the model call composed with `_parse_json_response`; any exception from
either is caught and replaced by the fallback. -/
def resume_parser_node (call : MCall) (s : CoverLetterState) :
    Option CoverLetterState := do
  let _resumeText ← s.resume_posting
  match call.bind parse_json_response with
  | .error _ =>
    some { s with resume_info := some resumeFallback,
                  user_name := some (Json.str "Candidate") }
  | .ok parsed =>
    -- `state["resume_info"] = parsed` happens first; `"name" in parsed` or
    -- `parsed["name"]` may then raise (TypeError on unhashable containers),
    -- in which case the handler overwrites resume_info with the fallback
    match pyContains parsed "name" with
    | none =>
      some { s with resume_info := some resumeFallback,
                    user_name := some (Json.str "Candidate") }
    | some true =>
      match jind parsed "name" with
      | some nm => some { s with resume_info := some parsed, user_name := some nm }
      | none =>
        some { s with resume_info := some resumeFallback,
                      user_name := some (Json.str "Candidate") }
    | some false => some { s with resume_info := some parsed }

/-- Fallback job structure (nodes.py lines 108-113 and 120-125). -/
def jobFallback : Json :=
  Json.obj [("title", Json.str "Position"), ("company", Json.str "Company"),
            ("requirements", Json.arr []), ("responsibilities", Json.arr [])]

/-- `job_parser_node` (nodes.py lines 98-126): falls back when the call or
the JSON extraction fails, and also when the parsed value is falsy or not a
dict. -/
def job_parser_node (call : MCall) (s : CoverLetterState) :
    Option CoverLetterState := do
  let _jobText ← s.job_posting
  match call.bind parse_json_response with
  | .error _ => some { s with job_info := some jobFallback }
  | .ok parsed =>
    if !(pyTruthy parsed) || !(parsed.isObj) then
      some { s with job_info := some jobFallback }
    else
      some { s with job_info := some parsed }

/-- Prompt of the relevance matcher (wording out of scope). -/
def matcherPrompt (resumeInfo jobInfo : Json) : String :=
  "MATCHER_SYSTEM_PROMPT\n\n### Resume Info:\n" ++ jsonDumps resumeInfo ++
  "\n\n### Job Info:\n" ++ jsonDumps jobInfo

/-- `relevance_matcher_node` (nodes.py lines 128-171). -/
def relevance_matcher_node (call : MCall) (s : CoverLetterState) :
    Option CoverLetterState := do
  let resumeInfo ← s.resume_info
  let jobInfo ← s.job_info
  let _prompt := matcherPrompt resumeInfo jobInfo
  match call.bind parse_json_response with
  | .error _ => some { s with matched_experiences := some (Json.arr []) }
  | .ok md =>
    if md.isObj then
      some { s with
        matched_experiences := some (jget md "matched_experiences" (Json.arr [])) }
    else
      -- `.get` raises AttributeError; the handler stores the empty list
      some { s with matched_experiences := some (Json.arr []) }

/-- Base prompt of the letter generator: the system prompt interpolates
`user_name` and `tone` (wording out of scope), then the job description and
matched experiences are appended (nodes.py line 218). -/
def generatorBasePrompt (userName : Json) (tone : String)
    (jobInfo experiences : Json) : String :=
  "GENERATOR_SYSTEM_PROMPT[" ++ pyToStr userName ++ "|" ++ tone ++ "]" ++
  "\n\n### Job Description:\n" ++ jsonDumps jobInfo ++
  "\n\n### Matched Experiences:\n" ++ jsonDumps experiences

/-- The directive header appended before prior issues (nodes.py line 222). -/
def rejectionDirective : String :=
  "\n\nThe previous draft was rejected for the following reasons. Please address them:\n"

/-- The full prompt sent by the letter generator, `none` when building it
raises (iterating a non-sequence `prior_issues` happens outside the `try`
block, nodes.py lines 220-222). -/
def generatorPromptOf (s : CoverLetterState) : Option String := do
  let jobInfo ← s.job_info
  let experiences ← s.matched_experiences
  let userName := s.user_name.getD (Json.str "Candidate")
  let priorIssues := s.prior_issues.getD (Json.arr [])
  let tone := s.tone.getD "Professional, concise, and clearly tailored to the role."
  let base := generatorBasePrompt userName tone jobInfo experiences
  if pyTruthy priorIssues then
    match pyIter priorIssues with
    | none => none
    | some items =>
      some (base ++ rejectionDirective ++
            joinNl (items.map (fun i => "- " ++ pyToStr i)))
  else some base

/-- Fallback letter (nodes.py line 240). -/
def genFallbackLetter : String := "Error generating cover letter. Please try again."

/-- `cover_letter_generator_node` (nodes.py lines 173-241). The metadata dict
evaluates `len(prior_issues)` and `len(experiences)` inside the `try` block
before the call; a `TypeError` there is caught by the stage handler. -/
def cover_letter_generator_node (call : MCall) (s : CoverLetterState) :
    Option CoverLetterState := do
  let _prompt ← generatorPromptOf s
  let experiences ← s.matched_experiences
  let priorIssues := s.prior_issues.getD (Json.arr [])
  if (pyLen priorIssues).isNone || (pyLen experiences).isNone then
    some { s with cover_letter := some genFallbackLetter }
  else
    match call with
    | .error _ => some { s with cover_letter := some genFallbackLetter }
    | .ok txt => some { s with cover_letter := some txt }

/-- Prompt of the letter validator (wording out of scope). -/
def validatorPrompt (letter : String) (jobInfo : Json) : String :=
  "VALIDATOR_SYSTEM_PROMPT\n\n### Cover Letter:\n" ++ letter ++
  "\n\n### Job Info:\n" ++ jsonDumps jobInfo

/-- Fallback validation verdict (nodes.py lines 294-298); the float score
`0.0` is modelled as `0`. -/
def validatorFallback : Json :=
  Json.obj [("valid", Json.bool false),
            ("issues", Json.arr [Json.str "Validation failed due to technical error"]),
            ("score", Json.num 0)]

/-- `cover_letter_validator_node` (nodes.py lines 243-299): stores the parsed
verdict, and on an invalid verdict overwrites `prior_issues` with the
verdict's issue list; on any caught exception stores the fallback verdict
(leaving `prior_issues` untouched). -/
def cover_letter_validator_node (call : MCall) (s : CoverLetterState) :
    Option CoverLetterState := do
  let letter ← s.cover_letter
  let jobInfo ← s.job_info
  let _prompt := validatorPrompt letter jobInfo
  match call.bind parse_json_response with
  | .error _ => some { s with validation_result := some validatorFallback }
  | .ok vd =>
    if vd.isObj then
      let s1 := { s with validation_result := some vd }
      if pyTruthy (jget vd "valid" (Json.bool false)) then some s1
      else some { s1 with prior_issues := some (jget vd "issues" (Json.arr [])) }
    else
      -- validation_result is first assigned vd, then `.get` raises
      -- AttributeError and the handler overwrites it with the fallback
      some { s with validation_result := some validatorFallback }

/-- `error_handler_node` (graph.py lines 134-146). -/
def error_handler_node (s : CoverLetterState) : CoverLetterState :=
  { s with error := some (Json.obj
      [("message", Json.str "Workflow execution failed"),
       ("validation_failed", Json.bool (s.validation_failed.getD false)),
       ("validation_error", s.validation_error.getD (Json.obj [])),
       ("state_summary", get_state_summary s)]) }

/-- `finish_node` (graph.py lines 148-156). -/
def finish_node (s : CoverLetterState) : CoverLetterState :=
  { s with workflow_completed := some true, status := some "success" }

/-! ### Branch predicates (graph.py lines 38-77) -/

/-- `input_validation_branch` (graph.py lines 38-42). -/
def input_validation_branch (s : CoverLetterState) : String :=
  if s.validation_failed.getD false then "error_handler" else "parse_resume"

/-- `parsing_branch` (graph.py lines 44-49): routes on after `parse_resume`;
requires BOTH `resume_info` and `job_info` keys to continue. -/
def parsing_branch (s : CoverLetterState) : String :=
  if s.resume_info.isSome && s.job_info.isSome then "parse_job" else "error_handler"

/-- `job_parsing_branch` (graph.py lines 51-55). -/
def job_parsing_branch (s : CoverLetterState) : String :=
  if s.job_info.isSome then "match_experiences" else "error_handler"

/-- `matching_branch` (graph.py lines 57-61). -/
def matching_branch (s : CoverLetterState) : String :=
  if s.matched_experiences.isSome then "generate_letter" else "error_handler"

/-- `validation_branch` (graph.py lines 63-77): valid verdict finishes; else
revise while `len(prior_issues) < 3`. `none` models an exception inside the
branch callback (`.get` on a non-dict verdict, `len` of an unsized value). -/
def validation_branch (s : CoverLetterState) : Option String :=
  let vr := s.validation_result.getD (Json.obj [])
  if vr.isObj then
    if pyTruthy (jget vr "valid" (Json.bool false)) then some "finish"
    else
      match pyLen (s.prior_issues.getD (Json.arr [])) with
      | some n => if 3 ≤ n then some "finish" else some "generate_letter"
      | none => none
  else none

/-! ### Model Invoker retry loop (`AIService.invoke_with_retry`,
ai_service.py lines 55-105) -/

/-- Python `str.lower()` (ASCII case folding suffices for the classifier
substrings). -/
def pyLower (s : String) : String := String.mk (s.data.map Char.toLower)

/-- The retryability classification (ai_service.py lines 91-97): `"529" in
str(e)` (case-sensitive), `"rate limit" in str(e).lower()`, `"timeout" in
str(e).lower()`. -/
def should_retry (e : String) : Bool :=
  decide ("529".data <:+: e.data) ||
  decide ("rate limit".data <:+: (pyLower e).data) ||
  decide ("timeout".data <:+: (pyLower e).data)

/-- The `for attempt in range(max_retries)` loop of `invoke_with_retry`: the
backend maps each attempt index to its outcome; `remaining` counts the loop
iterations left (initially `max_retries`) and `attempt` is the current index.
The result carries the number of attempts made. On a failure the loop
re-raises when the error is not retryable or this was the last attempt
(`attempt == max_retries - 1`); falling off the loop raises the final
`Exception("Max retries exceeded")` (reachable only for `max_retries = 0`).
The backoff sleep and the tracing side effect do not affect control flow and
are omitted. -/
def invokeLoop (backend : Nat → Except String String) (maxRetries : Nat) :
    Nat → Nat → Except String String × Nat
  | 0, attempt => (.error "Max retries exceeded", attempt)
  | remaining + 1, attempt =>
    match backend attempt with
    | .ok t => (.ok t, attempt + 1)
    | .error e =>
      if !(should_retry e) || attempt == maxRetries - 1 then (.error e, attempt + 1)
      else invokeLoop backend maxRetries remaining (attempt + 1)

/-- `invoke_with_retry(model, prompt, max_retries=3)`: run the attempt loop
from attempt 0. -/
def invoke_with_retry (backend : Nat → Except String String)
    (maxRetries : Nat := 3) : Except String String × Nat :=
  invokeLoop backend maxRetries maxRetries 0

/-! ### Workflow graph driver (`create_cover_letter_graph` + `invoke`,
graph.py lines 16-132)

The compiled graph is executed node by node: run the current node, then the
branch attached to it chooses the successor; `finish` and `error_handler` are
the terminal nodes. Model calls are resolved by an oracle; the generator and
validator calls are indexed by how many times that node has run. -/

/-- Oracle resolving each model call of a run. -/
structure Oracle where
  vInput : MCall
  vResume : MCall
  vJob : MCall
  vMatch : MCall
  vGen : Nat → MCall
  vVal : Nat → MCall

/-- Outcome of a graph run: normal termination, an exception escaping to the
`invoke_graph` handler, or fuel exhaustion (the concrete engine raises a
recursion-limit error on unbounded loops; any finite prefix of such a run is
reached with enough fuel). -/
inductive RunOutcome where
  | done : CoverLetterState → RunOutcome
  | exc : RunOutcome
  | fuelOut : CoverLetterState → RunOutcome
deriving Repr

/-- Execute one named graph node (graph.py lines 23-32), threading the
generation/validation call counters. -/
def execNode (o : Oracle) (g v : Nat) (name : String) (s : CoverLetterState) :
    Option (CoverLetterState × Nat × Nat) :=
  match name with
  | "validate_input" => (input_validation_node o.vInput s).map (fun s' => (s', g, v))
  | "parse_resume" => (resume_parser_node o.vResume s).map (fun s' => (s', g, v))
  | "parse_job" => (job_parser_node o.vJob s).map (fun s' => (s', g, v))
  | "match_experiences" => (relevance_matcher_node o.vMatch s).map (fun s' => (s', g, v))
  | "generate_letter" => (cover_letter_generator_node (o.vGen g) s).map (fun s' => (s', g + 1, v))
  | "validate_letter" => (cover_letter_validator_node (o.vVal v) s).map (fun s' => (s', g, v + 1))
  | "error_handler" => some (error_handler_node s, g, v)
  | "finish" => some (finish_node s, g, v)
  | _ => none

/-- The edge leaving a node (graph.py lines 79-130): `some (some next)` is a
transition, `some none` reaching a terminal, `none` a branch callback
raising. -/
def routeAfter (name : String) (s : CoverLetterState) : Option (Option String) :=
  match name with
  | "validate_input" => some (some (input_validation_branch s))
  | "parse_resume" => some (some (parsing_branch s))
  | "parse_job" => some (some (job_parsing_branch s))
  | "match_experiences" => some (some (matching_branch s))
  | "generate_letter" => some (some "validate_letter")
  | "validate_letter" => (validation_branch s).map some
  | _ => some none

/-- Run the graph from a given node with the given fuel, returning the list
of executed node names and the outcome. -/
def runAux (o : Oracle) : Nat → String → CoverLetterState → Nat → Nat →
    List String × RunOutcome
  | 0, _, s, _, _ => ([], .fuelOut s)
  | fuel + 1, name, s, g, v =>
    match execNode o g v name s with
    | none => ([name], .exc)
    | some (s', g', v') =>
      match routeAfter name s' with
      | none => ([name], .exc)
      | some none => ([name], .done s')
      | some (some nxt) =>
        let r := runAux o fuel nxt s' g' v'
        (name :: r.1, r.2)

/-- Run the whole pipeline from the entry point `validate_input`
(graph.py line 35). -/
def runPipeline (o : Oracle) (s : CoverLetterState) (fuel : Nat) :
    List String × RunOutcome :=
  runAux o fuel "validate_input" s 0 0

/-- Number of Letter Generator invocations in a run's trace. -/
def genCount (trace : List String) : Nat := trace.count "generate_letter"

/-! ### Streaming variant (`GraphService.invoke_graph_streaming`,
graph_service.py lines 27-67): a fixed sequential chain of the six stage
nodes with an early return when input validation fails. Returns the stages
invoked and the final state (`none` when a stage raises). -/

def invoke_graph_streaming (o : Oracle) (s : CoverLetterState) :
    List String × Option CoverLetterState :=
  match input_validation_node o.vInput s with
  | none => (["input_validation"], none)
  | some s1 =>
    if s1.validation_failed.getD false then
      (["input_validation"], some s1)
    else
      match resume_parser_node o.vResume s1 with
      | none => (["input_validation", "resume_parser"], none)
      | some s2 =>
        match job_parser_node o.vJob s2 with
        | none => (["input_validation", "resume_parser", "job_parser"], none)
        | some s3 =>
          match relevance_matcher_node o.vMatch s3 with
          | none => (["input_validation", "resume_parser", "job_parser",
                      "relevance_matcher"], none)
          | some s4 =>
            match cover_letter_generator_node (o.vGen 0) s4 with
            | none => (["input_validation", "resume_parser", "job_parser",
                        "relevance_matcher", "cover_letter_generator"], none)
            | some s5 =>
              match cover_letter_validator_node (o.vVal 0) s5 with
              | none => (["input_validation", "resume_parser", "job_parser",
                          "relevance_matcher", "cover_letter_generator",
                          "cover_letter_validator"], none)
              | some s6 =>
                (["input_validation", "resume_parser", "job_parser",
                  "relevance_matcher", "cover_letter_generator",
                  "cover_letter_validator"], some s6)

/-! ### Feedback Processor (`GraphService.invoke_graph_with_feedback`,
graph_service.py lines 69-90) -/

/-- The static suggestions list stored in `feedback_analysis`. -/
def feedbackSuggestions : Json :=
  Json.arr [Json.str "Consider the user feedback for future improvements"]

/-- `invoke_graph_with_feedback`: when both `user_feedback` and
`cover_letter` are non-empty, record `feedback_processed` and a
`feedback_analysis` carrying the received feedback and the static
suggestions; otherwise return the state unchanged. -/
def invoke_graph_with_feedback (s : CoverLetterState) : CoverLetterState :=
  let feedback := (s.user_feedback).getD ""
  let currentLetter := (s.cover_letter).getD ""
  if feedback ≠ "" ∧ currentLetter ≠ "" then
    { s with feedback_processed := some true,
             feedback_analysis := some (Json.obj
               [("feedback_received", Json.str feedback),
                ("suggestions", feedbackSuggestions)]) }
  else s

/-! ### Concrete fixtures used by the claim theorems

`initFresh` mirrors the streaming route's initial state (routes.py lines
158-162: only the raw documents and tone); `initSeeded` mirrors the
non-streaming route's initial state (routes.py lines 63-69), which also seeds
`resume_info` and `job_info` with the cached parse or `{}`. -/

def initFresh : CoverLetterState :=
  { resume_posting := some "Jane Doe, Software Engineer, five years of Python experience",
    job_posting := some "Senior Backend Engineer at Acme Corp, requires Python and SQL",
    tone := some "professional" }

def initSeeded : CoverLetterState :=
  { initFresh with resume_info := some (Json.obj []), job_info := some (Json.obj []) }

/-- Response accepting both documents. -/
def okValidationResp : String := "\x7b\"resume_valid\": true, \"job_valid\": true\x7d"

/-- Response rejecting the resume. -/
def badValidationResp : String :=
  "\x7b\"resume_valid\": false, \"job_valid\": true, \"resume_issues\": [\"gibberish\"]\x7d"

/-- Parsed-resume response. -/
def resumeResp : String := "\x7b\"name\": \"Jane Doe\", \"skills\": [\"python\"]\x7d"

/-- Parsed-job response. -/
def jobResp : String := "\x7b\"title\": \"Engineer\", \"company\": \"Acme\"\x7d"

/-- Matching response. -/
def matchResp : String := "\x7b\"matched_experiences\": [\x7b\"title\": \"Intern\"\x7d]\x7d"

/-- Rejecting verdict with a single issue. -/
def rejectOneResp : String := "\x7b\"valid\": false, \"issues\": [\"too short\"], \"score\": 0\x7d"

/-- Rejecting verdict with four issues. -/
def rejectFourResp : String :=
  "\x7b\"valid\": false, \"issues\": [\"a\", \"b\", \"c\", \"d\"], \"score\": 0\x7d"

/-- Accepting verdict. -/
def acceptResp : String := "\x7b\"valid\": true, \"issues\": [], \"score\": 1\x7d"

/-- Oracle whose validator rejects every draft with one issue. -/
def oracleAlwaysReject : Oracle :=
  { vInput := .ok okValidationResp, vResume := .ok resumeResp, vJob := .ok jobResp,
    vMatch := .ok matchResp, vGen := fun _ => .ok "DRAFT",
    vVal := fun _ => .ok rejectOneResp }

/-- Oracle whose validator rejects the first draft with four issues. -/
def oracleFourIssues : Oracle :=
  { oracleAlwaysReject with vVal := fun _ => .ok rejectFourResp }

/-- Oracle whose validator rejects the first draft and accepts the second. -/
def oracleFailThenPass : Oracle :=
  { oracleAlwaysReject with
    vVal := fun n => if n = 0 then .ok rejectOneResp else .ok acceptResp }

/-- Oracle whose input validation rejects the resume. -/
def oracleRejectResume : Oracle :=
  { oracleAlwaysReject with vInput := .ok badValidationResp }

/-- Oracle whose validator call raises on the first attempt and accepts the
second draft. -/
def oracleValCrash : Oracle :=
  { oracleAlwaysReject with
    vVal := fun n => if n = 0 then .error "connection reset" else .ok acceptResp }

/-- Final state carried by a run outcome (`none` for an escaped exception). -/
def finalStateOf : RunOutcome → Option CoverLetterState
  | .done s => some s
  | .fuelOut s => some s
  | .exc => none

/-- A state as it stands just before a `validate_letter` step: parsed job,
matched experiences and a draft present. -/
def preValState : CoverLetterState :=
  { initSeeded with
    job_info := some (Json.obj [("title", Json.str "Engineer"), ("company", Json.str "Acme")]),
    matched_experiences := some (Json.arr []),
    cover_letter := some "DRAFT",
    user_name := some (Json.str "Jane Doe") }

/-- A generator input whose `prior_issues` holds a non-sequence value (as the
validator stores whatever `verdict.get("issues", [])` returns). -/
def genCrashState : CoverLetterState :=
  { preValState with prior_issues := some (Json.num 5) }

/-- Feedback-route states differing only in the feedback text
(routes.py lines 191-198 build such states). -/
def fbStateA : CoverLetterState :=
  { initFresh with cover_letter := some "LETTER", user_feedback := some "Make it shorter" }

/-- Second feedback-route state. -/
def fbStateB : CoverLetterState :=
  { initFresh with cover_letter := some "LETTER", user_feedback := some "Add more detail" }

/-- A backend failing twice with a retryable overload error, then
succeeding. -/
def twoRetryableThenOk : Nat → Except String String :=
  fun n => if n < 2 then .error "Error code: 529 - overloaded_error" else .ok "recovered"

/-- A backend that always fails with a non-retryable error. -/
def alwaysBadKey : Nat → Except String String :=
  fun _ => .error "Invalid API key"

/-- A backend that always fails with a retryable rate-limit error. -/
def alwaysRateLimited : Nat → Except String String :=
  fun _ => .error "Rate limit exceeded, retry later"

/-- The state `resume_parser_node` produces from `initSeeded` on the
`resumeResp` response. -/
def afterResumeSeeded : CoverLetterState :=
  { initSeeded with
    resume_info := some (Json.obj [("name", Json.str "Jane Doe"),
                                   ("skills", Json.arr [Json.str "python"])]),
    user_name := some (Json.str "Jane Doe") }

/-- A post-validation state whose stored verdict has four issues. -/
def postFourIssuesState : CoverLetterState :=
  { preValState with
    validation_result := some (Json.obj
      [("valid", Json.bool false),
       ("issues", Json.arr [Json.str "a", Json.str "b", Json.str "c", Json.str "d"]),
       ("score", Json.num 0)]),
    prior_issues := some (Json.arr
      [Json.str "a", Json.str "b", Json.str "c", Json.str "d"]) }

/-- The state the validator produces from `preValState` on `acceptResp`. -/
def afterAcceptState : CoverLetterState :=
  { preValState with
    validation_result := some (Json.obj
      [("valid", Json.bool true), ("issues", Json.arr []), ("score", Json.num 1)]) }

/-- The state the validator produces from `preValState` on `rejectOneResp`. -/
def afterRejectState : CoverLetterState :=
  { preValState with
    validation_result := some (Json.obj
      [("valid", Json.bool false), ("issues", Json.arr [Json.str "too short"]),
       ("score", Json.num 0)]),
    prior_issues := some (Json.arr [Json.str "too short"]) }

/-- The prompt the generator builds from `afterRejectState`. -/
def promptAfterReject : String := (generatorPromptOf afterRejectState).getD ""

/-- The state `input_validation_node` produces from `initFresh` on the
resume-rejecting response. -/
def rejectedState : CoverLetterState :=
  { initFresh with
    input_validation := some (Json.obj
      [("resume_valid", Json.bool false), ("job_valid", Json.bool true),
       ("resume_issues", Json.arr [Json.str "gibberish"])]),
    validation_failed := some true,
    validation_error := some (Json.obj
      [("resume_issues", Json.arr [Json.str "gibberish"]),
       ("job_issues", Json.arr [])]) }

/-! ## Theorems -/

/-- Helper: an infix of `m` is an infix of `pre ++ m`. -/
theorem isInfixAppendLeft {α : Type} {x m : List α} (pre : List α) (h : x <:+: m) :
    x <:+: pre ++ m := by
  rcases h with ⟨s, t, rfl⟩
  exact ⟨pre ++ s, t, by simp⟩

/-- Helper: each member of a newline-joined list is an infix of the join. -/
theorem mem_data_joinNl (l : List String) (x : String) (hx : x ∈ l) :
    x.data <:+: (joinNl l).data := by
  induction l with
  | nil => cases hx
  | cons a t ih =>
    cases t with
    | nil =>
      rw [List.mem_singleton] at hx
      subst hx
      exact List.infix_rfl
    | cons b t2 =>
      rcases List.mem_cons.mp hx with h1 | h2
      · subst h1
        show x.data <:+: (x ++ "\n" ++ joinNl (b :: t2)).data
        rw [String.data_append, String.data_append, List.append_assoc]
        exact ⟨[], "\n".data ++ (joinNl (b :: t2)).data, by simp⟩
      · have h3 : x.data <:+: "\n".data ++ (joinNl (b :: t2)).data :=
          isInfixAppendLeft _ (ih h2)
        have h4 : x.data <:+: a.data ++ ("\n".data ++ (joinNl (b :: t2)).data) :=
          isInfixAppendLeft _ h3
        show x.data <:+: (a ++ "\n" ++ joinNl (b :: t2)).data
        rw [String.data_append, String.data_append, List.append_assoc]
        exact h4

/-- Claim C5 counterexample: the claim says the non-fenced fallback takes the
*first balanced* brace span, which on `'{"a":1} x {"b":2}'` would be
`{"a":1}` (a valid object, as the second conjunct shows). The code instead
matches greedily from the first `{` to the last `}` and then fails to decode
that span, raising the malformed-output error instead of returning a value. -/
theorem parse_json_response_balanced_span_refuted :
    parse_json_response "\x7b\"a\":1\x7d x \x7b\"b\":2\x7d" = .error "Invalid JSON response" ∧
    pyJsonLoads "\x7b\"a\":1\x7d" = some (Json.obj [("a", Json.num 1)]) := by
  constructor
  · rfl
  · rfl

/-- Claim C5 (amended): extraction takes a fenced block's content when the fenced
pattern matches, else the span from the first `{` to the *last* `}` (greedy,
not the first balanced span), else fails. The three concrete examples of the
claim hold as stated; the fourth conjunct shows the greedy (first-to-last)
behaviour on a span with a trailing brace. -/
theorem parse_json_response_spec :
    parse_json_response ("```json\n\x7b\"a\":1\x7d\n```") = .ok (Json.obj [("a", Json.num 1)]) ∧
    parse_json_response "noise \x7b\"a\":1\x7d noise" = .ok (Json.obj [("a", Json.num 1)]) ∧
    parse_json_response "no json here" = .error "No valid JSON found in response" ∧
    parse_json_response "\x7b\"a\":1\x7d\x7d" = .error "Invalid JSON response" := by
  refine ⟨?_, ?_, ?_, ?_⟩ <;> rfl

/-- Claim C10 counterexample: the claim says a fixed *static* `feedback_analysis`
is stored; two runs differing only in the feedback text store different
analyses (the analysis embeds the received feedback), so no single static
value exists. -/
theorem feedback_analysis_not_static :
    (invoke_graph_with_feedback fbStateA).feedback_analysis ≠
    (invoke_graph_with_feedback fbStateB).feedback_analysis := by
  simp [invoke_graph_with_feedback, fbStateA, fbStateB, initFresh, feedbackSuggestions]

/-- Claim C10 (amended): the Feedback Processor returns its input state entirely
unchanged whenever `user_feedback` or `cover_letter` is missing or empty;
when both are non-empty it adds exactly `feedback_processed = true` and a
`feedback_analysis` carrying the received feedback verbatim together with the
fixed static suggestions list; it never modifies `cover_letter` or any other
pre-existing field (the result is exactly the input record with those two
fields set). -/
theorem invoke_graph_with_feedback_spec :
    (∀ s : CoverLetterState,
       (s.user_feedback.getD "" = "" ∨ s.cover_letter.getD "" = "") →
       invoke_graph_with_feedback s = s) ∧
    (∀ (s : CoverLetterState) (fb lt : String),
       s.user_feedback = some fb → fb ≠ "" → s.cover_letter = some lt → lt ≠ "" →
       invoke_graph_with_feedback s =
         { s with feedback_processed := some true,
                  feedback_analysis := some (Json.obj
                    [("feedback_received", Json.str fb),
                     ("suggestions", feedbackSuggestions)]) }) := by
  constructor
  · intro s h
    unfold invoke_graph_with_feedback
    rcases h with h | h <;> rw [h] <;> simp
  · intro s fb lt hfb hne hlt hlne
    unfold invoke_graph_with_feedback
    rw [hfb, hlt]
    simp [hne, hlne]

/-- Claim C10 witness: the amended theorem applied at concrete states — an empty
feedback leaves the state untouched, and both-present stores exactly the two
fields. -/
theorem invoke_graph_with_feedback_spec_witness :
    invoke_graph_with_feedback { initFresh with cover_letter := some "LETTER" } =
      { initFresh with cover_letter := some "LETTER" } ∧
    invoke_graph_with_feedback fbStateA =
      { fbStateA with
        feedback_processed := some true,
        feedback_analysis := some (Json.obj
          [("feedback_received", Json.str "Make it shorter"),
           ("suggestions", feedbackSuggestions)]) } :=
  ⟨invoke_graph_with_feedback_spec.1 _ (Or.inl rfl),
   invoke_graph_with_feedback_spec.2 fbStateA "Make it shorter" "LETTER" rfl
     (by decide) rfl (by decide)⟩

/-- Helper: when every attempt in range fails with a retryable error, the
retry loop runs through all attempts and re-raises at the last one, having
made exactly `maxRetries` attempts. -/
theorem invokeLoop_exhausts (backend : Nat → Except String String) (maxRetries : Nat)
    (hfail : ∀ i, i < maxRetries → ∃ e, backend i = .error e ∧ should_retry e = true) :
    ∀ rem a, rem + a = maxRetries → 0 < rem →
      ∃ e, invokeLoop backend maxRetries rem a = (.error e, maxRetries) := by
  intro rem
  induction rem with
  | zero => intro a _ h0; omega
  | succ r ih =>
    intro a hsum _
    obtain ⟨e, he, hr⟩ := hfail a (by omega)
    unfold invokeLoop
    rw [he]
    by_cases hlast : a = maxRetries - 1
    · have hb : (a == maxRetries - 1) = true := by simp [hlast]
      refine ⟨e, ?_⟩
      simp only [hr, hb, Bool.not_true, Bool.false_or, if_true]
      have : a + 1 = maxRetries := by omega
      rw [this]
    · have hb : (a == maxRetries - 1) = false := by simp [hlast]
      cases r with
      | zero => omega
      | succ r2 =>
        obtain ⟨e2, h2⟩ := ih (a + 1) (by omega) (by omega)
        refine ⟨e2, ?_⟩
        simp only [hr, hb, Bool.not_true, Bool.or_self, Bool.false_or, if_false]
        exact h2

/-- Claim C4: the Model Invoker retries only on retryable errors (529 overload,
rate limit, timeout — by substring classification) and re-raises every other
error after the first attempt; a backend failing retryably twice then
succeeding yields the success value on the third attempt; a non-retryable
failure propagates after exactly one attempt; and a backend failing retryably
on every attempt exhausts `maxRetries` attempts and then fails. -/
theorem invoke_with_retry_spec :
    (∀ (backend : Nat → Except String String) (maxRetries : Nat) (e : String),
       0 < maxRetries → backend 0 = .error e → should_retry e = false →
       invoke_with_retry backend maxRetries = (.error e, 1)) ∧
    invoke_with_retry twoRetryableThenOk 3 = (.ok "recovered", 3) ∧
    invoke_with_retry alwaysBadKey 3 = (.error "Invalid API key", 1) ∧
    (∀ (backend : Nat → Except String String) (maxRetries : Nat),
       0 < maxRetries →
       (∀ i, i < maxRetries → ∃ e, backend i = .error e ∧ should_retry e = true) →
       ∃ e, invoke_with_retry backend maxRetries = (.error e, maxRetries)) ∧
    should_retry "Error code: 529 - overloaded_error" = true ∧
    should_retry "Rate limit exceeded, retry later" = true ∧
    should_retry "Request timeout after 60 seconds" = true ∧
    should_retry "Invalid API key" = false := by
  refine ⟨?_, by rfl, by rfl, ?_, by rfl, by rfl, by rfl, by rfl⟩
  · intro backend maxR e hpos h0 hsr
    unfold invoke_with_retry
    cases maxR with
    | zero => omega
    | succ m =>
      unfold invokeLoop
      rw [h0]
      simp [hsr]
  · intro backend maxR hpos hfail
    simpa using invokeLoop_exhausts backend maxR hfail maxR 0 (by omega) hpos

/-- Claim C4 witness: the retry contract applied at concrete backends — a
non-retryable failure propagates after one attempt, and an always-rate-limited
backend fails after exactly 3 attempts. -/
theorem invoke_with_retry_spec_witness :
    invoke_with_retry alwaysBadKey 3 = (.error "Invalid API key", 1) ∧
    ∃ e, invoke_with_retry alwaysRateLimited 3 = (.error e, 3) :=
  ⟨invoke_with_retry_spec.1 alwaysBadKey 3 "Invalid API key" (by decide) rfl (by decide),
   invoke_with_retry_spec.2.2.2.1 alwaysRateLimited 3 (by decide)
     (fun i _ => ⟨"Rate limit exceeded, retry later", rfl, by decide⟩)⟩

/-- Claim C1: refuted on the code. With a validator that rejects every draft with a
single issue, the revision loop does not stop after 3 revisions: each failing
validation *overwrites* `prior_issues` with its own issue list, so the
`len(prior_issues) >= 3` check (commented "Max 3 attempts", graph.py line 74)
never fires and the Letter Generator runs 6 times within the first 15 graph
steps — more than the claimed 4-invocation bound — with the loop never
exiting on its own. -/
theorem generator_unbounded_on_single_issue_rejection :
    genCount (runPipeline oracleAlwaysReject initSeeded 15).1 = 6 := by rfl

/-- Claim C2 counterexample: on the streaming route's initial state (no `job_info`
key seeded), the run reaches `error_handler` directly after `parse_resume`
instead of proceeding to `parse_job`: `parsing_branch` demands a `job_info`
key that nothing has set at that point, so the transition is not
unconditional. -/
theorem fresh_run_errors_after_parse_resume :
    (runPipeline oracleAlwaysReject initFresh 10).1 =
      ["validate_input", "parse_resume", "error_handler"] := by rfl

/-- Claim C2 (amended): the `parse_resume → parse_job` transition is guarded, not
unconditional: for every state the Resume Parser produces (it always writes
`resume_info`, also in its fallback, and never touches `job_info`), the
branch proceeds to `parse_job` exactly when the incoming state already had a
`job_info` key (as the production caller seeds), and routes to
`error_handler` otherwise. -/
theorem parsing_branch_spec (call : MCall) (s s' : CoverLetterState)
    (h : resume_parser_node call s = some s') :
    parsing_branch s' =
      (if s.job_info.isSome then "parse_job" else "error_handler") := by
  unfold resume_parser_node at h
  cases hrp : s.resume_posting with
  | none => rw [hrp] at h; simp at h
  | some rt =>
    rw [hrp] at h
    simp only [Option.bind_eq_bind, Option.some_bind] at h
    repeat' split at h
    all_goals simp only [Option.some.injEq] at h
    all_goals subst h
    all_goals simp [parsing_branch]

/-- Claim C2 witness: the amended rule applied at the production-style seeded
state — the Resume Parser output proceeds to `parse_job`. -/
theorem parsing_branch_spec_witness :
    parsing_branch afterResumeSeeded = "parse_job" :=
  (parsing_branch_spec (.ok resumeResp) initSeeded afterResumeSeeded (by rfl)).trans (by rfl)

/-- Claim C3 counterexample: when the validator rejects the first draft with four
issues, the run finishes normally while the final state's `prior_issues` has
length 4 — the claimed cap of 3 on the field's length does not hold (nothing
truncates the stored issue list). -/
theorem prior_issues_length_exceeds_cap :
    ((finalStateOf (runPipeline oracleFourIssues initSeeded 10).2).bind
       (fun s => s.prior_issues)).bind pyLen = some 4 ∧
    (runPipeline oracleFourIssues initSeeded 10).1.getLast? = some "finish" := by
  exact ⟨by rfl, by rfl⟩

/-- Claim C3 (amended): `prior_issues` holds the last failing verdict's issue list
and its length can exceed 3; whenever its length is at least 3 (and the
stored verdict is a dict, as every verdict the code stores is), the revision
loop exits to `finish` regardless of the verdict. -/
theorem validation_branch_cap_exits (s : CoverLetterState) (n : Nat)
    (hobj : (s.validation_result.getD (Json.obj [])).isObj = true)
    (hlen : pyLen (s.prior_issues.getD (Json.arr [])) = some n)
    (h3 : 3 ≤ n) :
    validation_branch s = some "finish" := by
  unfold validation_branch
  rw [hlen]
  simp only [hobj, if_true]
  by_cases hv : pyTruthy (jget (s.validation_result.getD (Json.obj []))
      "valid" (Json.bool false)) = true
  · simp [hv]
  · simp only [Bool.not_eq_true] at hv
    simp [hv, h3]

/-- Claim C3 witness: the cap rule applied at a concrete post-validation state with
four stored issues. -/
theorem validation_branch_cap_exits_witness :
    validation_branch postFourIssuesState = some "finish" :=
  validation_branch_cap_exits postFourIssuesState 4 (by rfl) (by rfl) (by omega)

/-- Claim C9 counterexample: a run whose first draft is rejected (one issue) and
whose second draft passes ends with a *valid* final verdict while
`prior_issues` is still present in the final state, carrying the first
attempt's issues — the field is not cleared on success. -/
theorem prior_issues_survives_valid_verdict :
    ((finalStateOf (runPipeline oracleFailThenPass initSeeded 12).2).map
       (fun s => (pyTruthy (jget (s.validation_result.getD (Json.obj []))
                    "valid" (Json.bool false)),
                  s.prior_issues))) =
      some (true, some (Json.arr [Json.str "too short"])) := by rfl

/-- Claim C9 (amended): the Letter Validator writes `prior_issues` only on a
failing verdict and never removes it: whenever its stored verdict is valid,
the field is exactly what it was before the call, so it is absent from the
final state only when no earlier attempt had failed. -/
theorem validator_valid_leaves_prior_issues (call : MCall) (s s' : CoverLetterState)
    (h : cover_letter_validator_node call s = some s')
    (hvalid : pyTruthy (jget (s'.validation_result.getD (Json.obj []))
        "valid" (Json.bool false)) = true) :
    s'.prior_issues = s.prior_issues := by
  unfold cover_letter_validator_node at h
  cases hcl : s.cover_letter with
  | none => rw [hcl] at h; simp at h
  | some lt =>
    rw [hcl] at h
    cases hji : s.job_info with
    | none => rw [hji] at h; simp at h
    | some ji =>
      rw [hji] at h
      simp only [Option.bind_eq_bind, Option.some_bind] at h
      repeat' split at h
      all_goals simp only [Option.some.injEq] at h
      all_goals subst h
      all_goals first
        | rfl
        | simp_all [validatorFallback, jget, pyTruthy]

/-- Claim C9 witness: the frame rule applied at a concrete accepting validation —
`prior_issues` stays exactly as it was (absent). -/
theorem validator_valid_leaves_prior_issues_witness :
    afterAcceptState.prior_issues = preValState.prior_issues :=
  validator_valid_leaves_prior_issues (.ok acceptResp) preValState afterAcceptState
    (by rfl) (by rfl)

/-- Claim C8 counterexample: when attempt N's validator call raises internally, the
stage stores the fallback verdict whose `issues` list is
`["Validation failed due to technical error"]` but does *not* write
`prior_issues`; the branch still loops back to the generator, so attempt
N+1's generator reads the default empty list — not the issues attempt N
returned (second conjunct: the two differ). -/
theorem validator_crash_breaks_issue_feedback :
    ((cover_letter_validator_node (.error "connection reset") preValState).map
       (fun s' => (jget (s'.validation_result.getD (Json.obj []))
                     "issues" (Json.arr []),
                   s'.prior_issues,
                   validation_branch s'))) =
      some (Json.arr [Json.str "Validation failed due to technical error"],
            none, some "generate_letter") ∧
    Json.arr [] ≠ Json.arr [Json.str "Validation failed due to technical error"] := by
  constructor
  · rfl
  · simp

/-- Claim C8 (amended): when attempt N's validator completes normally with an
invalid dict verdict, it writes exactly that verdict's `issues` list into
`prior_issues` (first part), and the generator appends every string issue it
reads from `prior_issues` verbatim into its prompt (second part: each issue's
text is an infix of the prompt); only when the validator fails internally is
its fallback issue list not propagated. -/
theorem validator_issue_feedback_spec :
    (∀ (txt : String) (vd : Json) (s s' : CoverLetterState),
       parse_json_response txt = .ok vd → vd.isObj = true →
       pyTruthy (jget vd "valid" (Json.bool false)) = false →
       cover_letter_validator_node (.ok txt) s = some s' →
       s'.prior_issues = some (jget vd "issues" (Json.arr []))) ∧
    (∀ (s : CoverLetterState) (issues : List Json) (prompt : String),
       s.prior_issues = some (Json.arr issues) →
       generatorPromptOf s = some prompt →
       ∀ i ∈ issues, (pyToStr i).data <:+: prompt.data) := by
  constructor
  · intro txt vd s s' hparse hobj hfalsy h
    unfold cover_letter_validator_node at h
    cases hcl : s.cover_letter with
    | none => rw [hcl] at h; simp at h
    | some lt =>
      rw [hcl] at h
      cases hji : s.job_info with
      | none => rw [hji] at h; simp at h
      | some ji =>
        rw [hji] at h
        simp only [Option.bind_eq_bind, Option.some_bind] at h
        repeat' split at h
        all_goals simp only [Option.some.injEq] at h
        all_goals subst h
        all_goals simp_all [Except.bind]
  · intro s issues prompt hpi hprompt i hi
    unfold generatorPromptOf at hprompt
    cases hji : s.job_info with
    | none => rw [hji] at hprompt; simp at hprompt
    | some ji =>
      rw [hji] at hprompt
      cases hme : s.matched_experiences with
      | none => rw [hme] at hprompt; simp at hprompt
      | some me =>
        rw [hme] at hprompt
        simp only [Option.bind_eq_bind, Option.some_bind] at hprompt
        rw [hpi] at hprompt
        cases issues with
        | nil => cases hi
        | cons a t =>
          simp only [Option.getD_some, pyTruthy, List.isEmpty_cons,
            Bool.not_false, if_true, pyIter, Option.some.injEq] at hprompt
          subst hprompt
          have h1 : ("- " ++ pyToStr i) ∈
              (a :: t).map (fun j => "- " ++ pyToStr j) :=
            List.mem_map_of_mem _ hi
          have h2 := mem_data_joinNl _ _ h1
          have h3 : (pyToStr i).data <:+: ("- " ++ pyToStr i).data := by
            rw [String.data_append]
            exact ⟨"- ".data, [], by simp⟩
          have h4 := h3.trans h2
          rw [String.data_append]
          exact isInfixAppendLeft _ h4

/-- Claim C8 witness: the feedback rule applied concretely — a normally-failing
validation writes its single issue into `prior_issues`, and that issue's text
appears verbatim inside the next generator prompt. -/
theorem validator_issue_feedback_spec_witness :
    ((cover_letter_validator_node (.ok rejectOneResp) preValState).map
       (fun s' => s'.prior_issues)) =
      some (some (Json.arr [Json.str "too short"])) ∧
    "too short".data <:+: promptAfterReject.data := by
  constructor
  · have h1 := validator_issue_feedback_spec.1 rejectOneResp
      (Json.obj [("valid", Json.bool false),
                 ("issues", Json.arr [Json.str "too short"]),
                 ("score", Json.num 0)])
      preValState afterRejectState (by rfl) (by rfl) (by rfl) (by rfl)
    calc ((cover_letter_validator_node (.ok rejectOneResp) preValState).map
            (fun s' => s'.prior_issues))
        = some afterRejectState.prior_issues := by rfl
      _ = some (some (Json.arr [Json.str "too short"])) := by rw [h1]; rfl
  · exact validator_issue_feedback_spec.2 afterRejectState
      [Json.str "too short"] promptAfterReject rfl (by rfl)
      (Json.str "too short") (by simp)

/-- Claim C6: on every input the Input Validator marks invalid (its output state
carries `validation_failed = True`), the graph goes straight from
`validate_input` to the `error_handler` terminal: the run executes exactly
those two nodes, never invoking the Resume Parser or the Job Parser, and the
streaming variant likewise stops after the input-validation stage. -/
theorem input_rejection_skips_parsers (o : Oracle) (s s1 : CoverLetterState) (n : Nat)
    (hrun : input_validation_node o.vInput s = some s1)
    (hfail : s1.validation_failed = some true) :
    (runPipeline o s (n + 2)).1 = ["validate_input", "error_handler"] ∧
    (runPipeline o s (n + 2)).2 = .done (error_handler_node s1) ∧
    "parse_resume" ∉ (runPipeline o s (n + 2)).1 ∧
    "parse_job" ∉ (runPipeline o s (n + 2)).1 ∧
    (invoke_graph_streaming o s).1 = ["input_validation"] := by
  have hb : input_validation_branch s1 = "error_handler" := by
    unfold input_validation_branch
    rw [hfail]
    rfl
  have hmain : runPipeline o s (n + 2) =
      (["validate_input", "error_handler"], .done (error_handler_node s1)) := by
    show runAux o (n + 1 + 1) "validate_input" s 0 0 = _
    unfold runAux
    simp only [execNode, hrun, Option.map_some', routeAfter, hb]
    unfold runAux
    simp only [execNode, routeAfter]
    rfl
  have hstream : (invoke_graph_streaming o s).1 = ["input_validation"] := by
    unfold invoke_graph_streaming
    rw [hrun]
    simp [hfail]
  refine ⟨by rw [hmain], by rw [hmain], ?_, ?_, hstream⟩
  · rw [hmain]; simp
  · rw [hmain]; simp

/-- Claim C6 witness: the cost-gate rule applied at the concrete resume-rejecting
oracle and the streaming route's initial state. -/
theorem input_rejection_skips_parsers_witness :
    (runPipeline oracleRejectResume initFresh 2).1 =
      ["validate_input", "error_handler"] ∧
    "parse_resume" ∉ (runPipeline oracleRejectResume initFresh 2).1 ∧
    (invoke_graph_streaming oracleRejectResume initFresh).1 =
      ["input_validation"] := by
  have h := input_rejection_skips_parsers oracleRejectResume initFresh rejectedState 0
    (by rfl) (by rfl)
  exact ⟨h.1, h.2.2.1, h.2.2.2.2⟩

/-- Claim C7 counterexample: with its required fields present and even a successful
model call, the Letter Generator raises past its stage boundary when
`prior_issues` holds a non-sequence value (the issue-formatting loop runs
outside its `try` block, nodes.py lines 220-222), so not *every* stage is
total at its boundary. -/
theorem generator_raises_on_non_list_prior_issues :
    cover_letter_generator_node (.ok "DRAFT") genCrashState = none ∧
    genCrashState.job_info.isSome = true ∧
    genCrashState.matched_experiences.isSome = true := by
  exact ⟨by rfl, by rfl, by rfl⟩

/-- Claim C7 (amended): every stage catches Model-Invoker failures and writes its
deterministic fallback — the Job Parser falls back to the fixed
title/company structure, the Relevance Matcher to the empty sequence, the
Letter Validator to the fixed invalid verdict — and, with required fields
present, each stage returns a state for *every* call outcome; the one
exception is the Letter Generator, which is total only when `prior_issues` is
absent or a list, because its issue formatting runs outside the handler. -/
theorem stage_fallback_spec :
    (∀ (s : CoverLetterState) (jt e : String), s.job_posting = some jt →
       job_parser_node (.error e) s = some { s with job_info := some jobFallback }) ∧
    (∀ (s : CoverLetterState) (jt : String) (call : MCall), s.job_posting = some jt →
       (job_parser_node call s).isSome = true) ∧
    (∀ (s : CoverLetterState) (ri ji : Json) (e : String),
       s.resume_info = some ri → s.job_info = some ji →
       relevance_matcher_node (.error e) s =
         some { s with matched_experiences := some (Json.arr []) }) ∧
    (∀ (s : CoverLetterState) (ri ji : Json) (call : MCall),
       s.resume_info = some ri → s.job_info = some ji →
       (relevance_matcher_node call s).isSome = true) ∧
    (∀ (s : CoverLetterState) (lt : String) (ji : Json) (e : String),
       s.cover_letter = some lt → s.job_info = some ji →
       cover_letter_validator_node (.error e) s =
         some { s with validation_result := some validatorFallback }) ∧
    (∀ (s : CoverLetterState) (lt : String) (ji : Json) (call : MCall),
       s.cover_letter = some lt → s.job_info = some ji →
       (cover_letter_validator_node call s).isSome = true) ∧
    (∀ (s : CoverLetterState) (rt jt : String) (call : MCall),
       s.resume_posting = some rt → s.job_posting = some jt →
       (input_validation_node call s).isSome = true) ∧
    (∀ (s : CoverLetterState) (rt : String) (call : MCall),
       s.resume_posting = some rt →
       (resume_parser_node call s).isSome = true) ∧
    (∀ (s : CoverLetterState) (ji me : Json) (call : MCall),
       s.job_info = some ji → s.matched_experiences = some me →
       s.prior_issues = none →
       (cover_letter_generator_node call s).isSome = true) ∧
    (∀ (s : CoverLetterState) (ji me : Json) (l : List Json) (call : MCall),
       s.job_info = some ji → s.matched_experiences = some me →
       s.prior_issues = some (Json.arr l) →
       (cover_letter_generator_node call s).isSome = true) := by
  refine ⟨?_, ?_, ?_, ?_, ?_, ?_, ?_, ?_, ?_, ?_⟩
  · intro s jt e hjt
    unfold job_parser_node
    rw [hjt]
    simp only [Option.bind_eq_bind, Option.some_bind]
    rfl
  · intro s jt call hjt
    unfold job_parser_node
    rw [hjt]
    simp only [Option.bind_eq_bind, Option.some_bind]
    repeat' split
    all_goals rfl
  · intro s ri ji e hri hji
    unfold relevance_matcher_node
    rw [hri, hji]
    simp only [Option.bind_eq_bind, Option.some_bind]
    rfl
  · intro s ri ji call hri hji
    unfold relevance_matcher_node
    rw [hri, hji]
    simp only [Option.bind_eq_bind, Option.some_bind]
    repeat' split
    all_goals rfl
  · intro s lt ji e hlt hji
    unfold cover_letter_validator_node
    rw [hlt, hji]
    simp only [Option.bind_eq_bind, Option.some_bind]
    rfl
  · intro s lt ji call hlt hji
    unfold cover_letter_validator_node
    rw [hlt, hji]
    simp only [Option.bind_eq_bind, Option.some_bind]
    repeat' split
    all_goals rfl
  · intro s rt jt call hrt hjt
    unfold input_validation_node
    rw [hrt, hjt]
    simp only [Option.bind_eq_bind, Option.some_bind]
    repeat' split
    all_goals rfl
  · intro s rt call hrt
    unfold resume_parser_node
    rw [hrt]
    simp only [Option.bind_eq_bind, Option.some_bind]
    repeat' split
    all_goals rfl
  · intro s ji me call hji hme hpi
    unfold cover_letter_generator_node generatorPromptOf
    rw [hji, hme, hpi]
    simp only [Option.bind_eq_bind, Option.some_bind]
    repeat' split
    all_goals first
      | rfl
      | simp_all [pyIter, pyTruthy]
  · intro s ji me l call hji hme hpi
    unfold cover_letter_generator_node generatorPromptOf
    rw [hji, hme, hpi]
    simp only [Option.bind_eq_bind, Option.some_bind]
    repeat' split
    all_goals first
      | rfl
      | simp_all [pyIter, pyTruthy]

/-- Claim C7 witness: the fallback rules applied at concrete states — a raising
model call makes the Job Parser write the fixed fallback job structure and
the Letter Validator the fixed fallback verdict. -/
theorem stage_fallback_spec_witness :
    job_parser_node (.error "boom") initFresh =
      some { initFresh with job_info := some jobFallback } ∧
    cover_letter_validator_node (.error "boom") preValState =
      some { preValState with validation_result := some validatorFallback } :=
  ⟨stage_fallback_spec.1 initFresh
     "Senior Backend Engineer at Acme Corp, requires Python and SQL" "boom" rfl,
   stage_fallback_spec.2.2.2.2.1 preValState "DRAFT"
     (Json.obj [("title", Json.str "Engineer"), ("company", Json.str "Acme")])
     "boom" rfl rfl⟩
